import Mathlib

/-!
Verification of the log-courier agent (registrar, transport, entry point)
against its design document.  The Go source is shallowly embedded: Go maps
become association lists with unique keys, channels become queues, int64
offsets become Int, and the fallible operations return Option/Except.
-/

set_option autoImplicit false

namespace LogCourier

/-! Association lists, modelling Go maps.  A Go map has at most one binding
per key; states built from the empty map by the operations below keep their
key lists Nodup, and the theorems that depend on it take that as a
hypothesis. -/

def alLookup {κ α : Type} [DecidableEq κ] (k : κ) : List (κ × α) → Option α
  | [] => none
  | (k', v) :: rest => if k' = k then some v else alLookup k rest

def alInsert {κ α : Type} [DecidableEq κ] (k : κ) (v : α) : List (κ × α) → List (κ × α)
  | [] => [(k, v)]
  | (k', v') :: rest => if k' = k then (k, v) :: rest else (k', v') :: alInsert k v rest

def alErase {κ α : Type} [DecidableEq κ] (k : κ) : List (κ × α) → List (κ × α)
  | [] => []
  | (k', v') :: rest => if k' = k then rest else (k', v') :: alErase k rest

def alKeys {κ α : Type} (l : List (κ × α)) : List κ := l.map Prod.fst

theorem alKeys_nil {κ α : Type} : alKeys ([] : List (κ × α)) = [] := rfl

theorem alKeys_cons {κ α : Type} (p : κ × α) (l : List (κ × α)) :
    alKeys (p :: l) = p.1 :: alKeys l := rfl

theorem alLookup_alInsert_self {κ α : Type} [DecidableEq κ] (k : κ) (v : α)
    (l : List (κ × α)) : alLookup k (alInsert k v l) = some v := by
  induction l with
  | nil => simp [alInsert, alLookup]
  | cons p rest ih =>
    by_cases h : p.1 = k
    · simp [alInsert, alLookup, h]
    · simp [alInsert, alLookup, h, ih]

theorem alLookup_alInsert_ne {κ α : Type} [DecidableEq κ] {k k' : κ} (v : α)
    (l : List (κ × α)) (h : k' ≠ k) :
    alLookup k (alInsert k' v l) = alLookup k l := by
  have hkk : ¬k = k' := fun he => h he.symm
  induction l with
  | nil => simp [alInsert, alLookup, h]
  | cons p rest ih =>
    by_cases hp : p.1 = k'
    · simp [alInsert, alLookup, hp, h, hkk]
    · by_cases hk : p.1 = k
      · simp [alInsert, alLookup, hp, hk, hkk]
      · simp [alInsert, alLookup, hp, hk, hkk, ih]

theorem mem_alKeys_alInsert {κ α : Type} [DecidableEq κ] {x k : κ} (v : α)
    {l : List (κ × α)} (h : x ∈ alKeys (alInsert k v l)) :
    x = k ∨ x ∈ alKeys l := by
  induction l with
  | nil => simpa [alInsert, alKeys_cons, alKeys_nil] using h
  | cons p rest ih =>
    by_cases hp : p.1 = k
    · simp only [alInsert, hp, if_true, alKeys_cons, List.mem_cons] at h
      rcases h with h | h
      · exact Or.inl h
      · exact Or.inr (by simp [alKeys_cons, h])
    · simp only [alInsert, hp, if_false, alKeys_cons, List.mem_cons] at h
      rcases h with h | h
      · exact Or.inr (by simp [alKeys_cons, h])
      · rcases ih h with h' | h'
        · exact Or.inl h'
        · exact Or.inr (by simp [alKeys_cons, h'])

theorem alKeys_nodup_alInsert {κ α : Type} [DecidableEq κ] (k : κ) (v : α)
    {l : List (κ × α)} (h : (alKeys l).Nodup) :
    (alKeys (alInsert k v l)).Nodup := by
  induction l with
  | nil => simp [alInsert, alKeys_cons, alKeys_nil]
  | cons p rest ih =>
    simp only [alKeys_cons, List.nodup_cons] at h
    by_cases hp : p.1 = k
    · simp only [alInsert, hp, if_true, alKeys_cons, List.nodup_cons]
      exact ⟨hp ▸ h.1, h.2⟩
    · simp only [alInsert, hp, if_false, alKeys_cons, List.nodup_cons]
      refine ⟨fun hm => ?_, ih h.2⟩
      rcases mem_alKeys_alInsert v hm with h' | h'
      · exact hp h'
      · exact h.1 h'

theorem alLookup_eq_none_of_not_mem {κ α : Type} [DecidableEq κ] {k : κ}
    {l : List (κ × α)} (h : k ∉ alKeys l) : alLookup k l = none := by
  induction l with
  | nil => rfl
  | cons p rest ih =>
    simp only [alKeys_cons, List.mem_cons, not_or] at h
    have hp : ¬p.1 = k := fun he => h.1 he.symm
    simp [alLookup, hp, ih h.2]

theorem alLookup_alErase_self {κ α : Type} [DecidableEq κ] (k : κ)
    {l : List (κ × α)} (h : (alKeys l).Nodup) :
    alLookup k (alErase k l) = none := by
  induction l with
  | nil => rfl
  | cons p rest ih =>
    simp only [alKeys_cons, List.nodup_cons] at h
    by_cases hp : p.1 = k
    · simp only [alErase, hp, if_true]
      exact alLookup_eq_none_of_not_mem (hp ▸ h.1)
    · simp [alErase, alLookup, hp, ih h.2]

theorem alLookup_isSome_alInsert {κ α : Type} [DecidableEq κ] (k s : κ) (v : α)
    {l : List (κ × α)} (h : (alLookup s l).isSome = true) :
    (alLookup s (alInsert k v l)).isSome = true := by
  by_cases hk : k = s
  · subst hk; simp [alLookup_alInsert_self]
  · rwa [alLookup_alInsert_ne v l hk]

theorem alLookup_eq_some_of_mem {κ α : Type} [DecidableEq κ] {k : κ} {v : α}
    {l : List (κ × α)} (hnd : (alKeys l).Nodup) (hm : (k, v) ∈ l) :
    alLookup k l = some v := by
  induction l with
  | nil => cases hm
  | cons p rest ih =>
    simp only [alKeys_cons, List.nodup_cons] at hnd
    rcases List.mem_cons.mp hm with h | h
    · cases h
      simp [alLookup]
    · have hkmem : k ∈ alKeys rest := by
        simpa [alKeys] using List.mem_map_of_mem Prod.fst h
      have hp : ¬p.1 = k := fun he => hnd.1 (by rw [he]; exact hkmem)
      simp only [alLookup, hp, if_false]
      exact ih hnd.2 h

theorem mem_unique_of_alKeys_nodup {κ α : Type} [DecidableEq κ] {k : κ} {a b : α}
    {l : List (κ × α)} (hnd : (alKeys l).Nodup)
    (ha : (k, a) ∈ l) (hb : (k, b) ∈ l) : a = b := by
  have h1 := alLookup_eq_some_of_mem hnd ha
  have h2 := alLookup_eq_some_of_mem hnd hb
  rw [h1] at h2
  exact Option.some_inj.mp h2

/-! Registrar data model, from registrar.go (src/unnamed/part_001).

FileState carries the stored source path and the int64 byte offset (the
FileId fields populated by PopulateFileIds are not involved in any claim
and are omitted).  A live ProspectorInfo pointer is modelled by a Nat
identity; the registrar state map[*ProspectorInfo]*FileState becomes an
association list keyed by that identity. -/

structure FileState where
  source : String
  offset : Int
  deriving DecidableEq, Repr

abbrev RegState := List (Nat × FileState)

/-- Registrar events, one constructor per event type of registrar.go:
NewFileEvent, DeletedEvent, RenamedEvent and EventsEvent (the latter
carrying, per acknowledged event, the originating ProspectorInfo and its
offset). -/
inductive RegistrarEvent where
  | newFile (k : Nat) (source : String) (offset : Int)
  | deleted (k : Nat)
  | renamed (k : Nat) (source : String)
  | events (evs : List (Nat × Int))
  deriving DecidableEq

/-- One step of EventsEvent.Process (part_001 lines 73-81): an entry whose
ProspectorInfo is not in the state map is skipped, otherwise its stored
Offset is assigned the offset carried by the event. -/
def eventsStep (st : RegState) (p : Nat × Int) : RegState :=
  match alLookup p.1 st with
  | none => st
  | some fs => alInsert p.1 ⟨fs.source, p.2⟩ st

/-- The loop of EventsEvent.Process over its event list. -/
def applyEvents (evs : List (Nat × Int)) (st : RegState) : RegState :=
  evs.foldl eventsStep st

/-- RegistrarEvent.Process, the dispatch over the four Process methods of
registrar.go lines 28-82:
NewFileEvent stores a fresh FileState; DeletedEvent deletes the entry;
RenamedEvent updates the stored Source only when the entry exists;
EventsEvent assigns each carried offset to the matching entry, skipping
unknown ones. -/
def RegistrarEvent.Process : RegistrarEvent → RegState → RegState
  | .newFile k src off, st => alInsert k ⟨src, off⟩ st
  | .deleted k, st => alErase k st
  | .renamed k src, st =>
    match alLookup k st with
    | none => st
    | some fs => alInsert k ⟨src, fs.offset⟩ st
  | .events evs, st => applyEvents evs st

/-- The registrar loop of Register (part_001 lines 159-162) processes the
events of a batch in order. -/
def processAll (evs : List RegistrarEvent) (st : RegState) : RegState :=
  evs.foldl (fun st e => e.Process st) st

/-- The serialization step of Register (part_001 lines 164-170): the
persisted document state_json is a map keyed by the stored source path,
filled by iterating over the state and assigning state_json[*value.Source]
= value. -/
def buildStateJson (st : RegState) : List (String × FileState) :=
  st.foldl (fun doc p => alInsert p.2.source p.2 doc) []

/-! Registrar LoadPrevious, part_001 lines 103-137. -/

/-- A live ProspectorInfo as produced by NewProspectorInfoFromFileState,
carrying the path the resume map key came from and the decoded state. -/
structure ProspectorInfoM where
  file : String
  lastState : FileState
  deriving DecidableEq

def NewProspectorInfoFromFileState (file : String) (fs : FileState) : ProspectorInfoM :=
  ⟨file, fs⟩

/-- The two files LoadPrevious may read, keyed under persist_dir: first
".log-courier", then ".log-courier.new".  A field none means os.Open
fails; some d means the file opens and json-decodes to the document d
(decode errors are ignored by the source, so an unparsable open file is
the empty document). -/
structure PersistFS where
  mainFile : Option (List (String × FileState))
  newFile : Option (List (String × FileState))

/-- The value LoadPrevious builds from a decoded document (part_001 lines
128-136): the resume map keyed by the stored path, and the rebuilt
registrar state keyed by the fresh ProspectorInfo made for each entry. -/
structure LoadPreviousResult where
  resume : List (String × ProspectorInfoM)
  state : List (ProspectorInfoM × FileState)
  deriving DecidableEq

def mkLoadResult (data : List (String × FileState)) : LoadPreviousResult :=
  { resume := data.map (fun p => (p.1, NewProspectorInfoFromFileState p.1 p.2))
    state := data.map (fun p => (NewProspectorInfoFromFileState p.1 p.2, p.2)) }

/-- Registrar.LoadPrevious (part_001 lines 103-137): open
persistdir/.log-courier; if that open fails, open
persistdir/.log-courier.new; if that also fails return nil, otherwise
decode and build the resume map and registrar state. -/
def LoadPrevious (fs : PersistFS) : Option LoadPreviousResult :=
  match fs.mainFile with
  | some data => some (mkLoadResult data)
  | none =>
    match fs.newFile with
    | some data => some (mkLoadResult data)
    | none => none

/-! Transport, from transport_tls.go (src/unnamed/part_002 lines 404-774). -/

/-- socket_interval_seconds, part_002 line 456: the read and write deadline
interval, in seconds. -/
def socket_interval_seconds : Nat := 5

/-- Values the receiver pushes onto recv_chan: a delivered message (kept
here as its payload length) or one of the two error shapes of the
receiver (the oversized-length error of line 620 and a read error). -/
inductive RecvOut where
  | message (len : Nat)
  | tooLarge (len : Nat)
  | ioError
  deriving DecidableEq

/-- One iteration of the receiver loop (part_002 lines 610-634) on a frame
whose 8-byte header declares payload length len, when the socket yields
the bytes without error: the length is checked against 1048576 and, if it
exceeds it, the error "Received message too large (len)" is pushed onto
recv_chan; the code then falls through regardless, allocates 8+len bytes,
reads the payload and pushes the full message onto recv_chan. -/
def receiverStep (len : Nat) : List RecvOut :=
  (if len > 1048576 then [RecvOut.tooLarge len] else []) ++ [RecvOut.message len]

/-- The receiver loop over a sequence of error-free inbound frames, given
by their declared payload lengths: the sequence of values pushed onto
recv_chan, in order. -/
def receiverRun (frames : List Nat) : List RecvOut :=
  frames.foldl (fun acc len => acc ++ receiverStep len) []

/-- The part of the transport state that Disconnect (part_002 lines
713-719) touches: whether the shutdown channel has been closed, whether
the socket has been closed, and the write buffer (kept as its length).
The sender/receiver join (wait.Wait) has no effect on this state. -/
structure TransDisconnectState where
  shutdownClosed : Bool
  socketClosed : Bool
  writeBufferLen : Nat
  deriving DecidableEq

/-- TransportTls.Disconnect, part_002 lines 713-719: close(t.shutdown)
(which, per Go channel semantics, panics with "close of closed channel"
if the channel is already closed), join the two tasks, close the socket
and reset the write buffer.  The panic is modelled as the error result. -/
def Disconnect (s : TransDisconnectState) : Except String TransDisconnectState :=
  if s.shutdownClosed then
    Except.error "close of closed channel"
  else
    Except.ok { shutdownClosed := true, socketClosed := true, writeBufferLen := 0 }

/-- Result of one tcpsocket.Write attempt inside TransportTlsWrap.Write:
success, a timeout (net.Error with Timeout() true), or any other error. -/
inductive WriteRes where
  | ok
  | timeout
  | fatal
  deriving DecidableEq

/-- One attempt of the underlying tcpsocket.Write: the byte count it
returns, its result, and whether the transport shutdown channel is
closed at the moment the wrapper checks it after a timeout. -/
structure WriteAttempt where
  n : Nat
  res : WriteRes
  shutdownSeen : Bool
  deriving DecidableEq

/-- TransportTlsWrap.Write, part_002 lines 725-750, driven by an oracle
list of attempt outcomes.  Each iteration arms a fresh write deadline of
socket_interval_seconds (line 731) - on every retry, whether or not the
previous attempt made progress - then writes and accumulates the byte
count.  nil error returns the total; a timeout returns the timeout error
only when the shutdown channel is ready, and otherwise retries; any
other error is returned at once.  none models the loop still running
when the oracle is exhausted (a timeout loop with no shutdown never
exits by itself). -/
def wrapWrite : List WriteAttempt → Nat → Option (Nat × WriteRes)
  | [], _ => none
  | a :: rest, len =>
    let len := len + a.n
    match a.res with
    | .ok => some (len, .ok)
    | .timeout => if a.shutdownSeen then some (len, .timeout) else wrapWrite rest len
    | .fatal => some (len, .fatal)

/-- What the sender loop (part_002 lines 586-598) does with the error
returned by t.socket.Write. -/
inductive SenderOutcome where
  | continueSending
  | shutdownBreak
  | fatalToConnection
  deriving DecidableEq

/-- The sender's dispatch on the write result (part_002 lines 589-598):
nil error re-arms can_send and keeps sending; a timeout error means the
wrapper saw shutdown, so the loop breaks; any other error is passed back
on recv_chan, which the caller treats as connection loss. -/
def senderClassify : WriteRes → SenderOutcome
  | .ok => .continueSending
  | .timeout => .shutdownBreak
  | .fatal => .fatalToConnection

/-- The channel state set up by Connect after the socket is established,
plus the pieces Flush touches.  Channels are queues; can_send has
capacity 1. -/
structure ConnSignalState where
  canSendQueue : List Nat
  sendQueue : List (List Nat)
  writeBuffer : List Nat
  deriving DecidableEq

/-- The signal initialization performed by TransportTls.Connect once the
socket is connected (part_002 lines 559-566): all channels are created
empty and a single token is placed into can_send before the sender and
receiver are started and Connect returns. -/
def connectSignalInit : ConnSignalState :=
  { canSendQueue := [1], sendQueue := [], writeBuffer := [] }

/-- TransportTls.Flush, part_002 lines 695-699: the buffered bytes are
queued to the sender and the write buffer is reset; can_send is not
touched. -/
def Flush (s : ConnSignalState) : ConnSignalState :=
  { s with sendQueue := s.sendQueue ++ [s.writeBuffer], writeBuffer := [] }

/-! Entry point, from log-courier.go (src/unnamed/part_002 lines 56-403). -/

/-- The agent state relevant to config reloading: the identity of the
Config object currently held in lc.config, and an allocation counter
giving every config.NewConfig() call a fresh identity. -/
structure AgentState where
  configId : Nat
  nextId : Nat
  deriving DecidableEq

/-- logCourier.loadConfig, part_002 lines 293-306: lc.config is first
replaced by a freshly allocated config.NewConfig(), and only then is
Load called on it; on Load failure the error is returned with the fresh
object already installed in lc.config.  loadOk is the outcome of
config.Load. -/
def loadConfig (st : AgentState) (loadOk : Bool) : AgentState × Option String :=
  let st' : AgentState := { configId := st.nextId, nextId := st.nextId + 1 }
  if loadOk then (st', none) else (st', some "config load error")

/-- logCourier.reloadConfig, part_002 lines 311-336: call loadConfig and
return its error if it failed; on success update log level, reopen the
log file, restart the listener and send the new config to the pipeline
(none of which touch lc.config). -/
def reloadConfig (st : AgentState) (loadOk : Bool) : AgentState × Option String :=
  let r := loadConfig st loadOk
  match r.2 with
  | some e => (r.1, some e)
  | none => (r.1, none)

/-- Outcome of logCourier.startUp: either a deliberate os.Exit with the
given code reached inside startUp, or startUp returns and the pipeline
starts.  When startUp returns after a successful -cpuprofile start, the
timer goroutine it spawned (part_002 lines 245-249) is still armed:
profilePanicArmed records that. -/
inductive StartUpOutcome where
  | exit (code : Nat)
  | proceed (profilePanicArmed : Bool)
  deriving DecidableEq

/-- Exit status of a Go process terminated by an unrecovered panic, as
log.Panic of the go-logging package causes: the Go runtime exits with
status 2. -/
def panicExitStatus : Nat := 2

/-- logCourier.startUp, part_002 lines 176-258.  Flag and outcome order
follows the source: -version exits 0; -list-supported exits 0; an empty
-config exits 1; then the configuration is loaded; -config-test exits 0
on success and 1 on failure; a load error exits 1; a logging
initialisation failure exits 1; a cpuprofile file creation failure hits
log.Fatal, which exits 1; a successful -cpuprofile start spawns the
timer goroutine (the panic stays armed when startUp proceeds); a
Prometheus listener failure exits 1. -/
def startUp (version listSupported configFileEmpty configTest loadOk loggingOk
    profileRequested profileCreateOk listenerOk : Bool) : StartUpOutcome :=
  if version then .exit 0
  else if listSupported then .exit 0
  else if configFileEmpty then .exit 1
  else if configTest then (if loadOk then .exit 0 else .exit 1)
  else if !loadOk then .exit 1
  else if !loggingOk then .exit 1
  else if profileRequested && !profileCreateOk then .exit 1
  else if !listenerOk then .exit 1
  else .proceed profileRequested

/-- The -cpuprofile timer goroutine, part_002 lines 245-249: 60 seconds
after a successful profile start it stops the profiler and calls
log.Panic("CPU profile completed"); the panic is not recovered, so a
process still running when the timer fires terminates with the Go
panic status.  none = no timer was armed, the process keeps running. -/
def profileTimerExit (armed : Bool) : Option Nat :=
  if armed then some panicExitStatus else none

/-- The fatal initialisation paths of logCourier.Run, part_002 lines
95-130: outside stdin mode, a failure of admin.NewServer or of
prospector.NewProspector hits log.Fatalf of the go-logging package,
which calls os.Exit(1).  none = Run proceeds. -/
def runFatal (stdin adminEnabled adminOk prospectorOk : Bool) : Option Nat :=
  if stdin then none
  else if adminEnabled && !adminOk then some 1
  else if !prospectorOk then some 1
  else none

/-- Exit status of the process when Run completes its signal loop and
returns: main returns normally, so the process exits 0. -/
def cleanShutdownExit : Nat := 0

/-- The offsets a registrar event writes for the tracked file k, in the
order the Process methods assign them: NewFileEvent stores its Offset,
EventsEvent assigns the offset of each of its entries for k, the other
events write no offset. -/
def writesFor (k : Nat) : RegistrarEvent → List Int
  | .newFile p _ off => if p = k then [off] else []
  | .events evs => (evs.filter (fun e => decide (e.1 = k))).map Prod.snd
  | _ => []

/-! Lemmas about the EventsEvent fold. -/

theorem eventsStep_of_none {st : RegState} {p : Nat × Int}
    (h : alLookup p.1 st = none) : eventsStep st p = st := by
  simp [eventsStep, h]

theorem alLookup_none_eventsStep {k : Nat} {st : RegState} (p : Nat × Int)
    (h : alLookup k st = none) : alLookup k (eventsStep st p) = none := by
  by_cases hp : p.1 = k
  · rw [eventsStep_of_none (hp ▸ h)]
    exact h
  · unfold eventsStep
    cases hlk : alLookup p.1 st with
    | none => exact h
    | some g => simpa [alLookup_alInsert_ne _ _ hp] using h

theorem alLookup_none_applyEvents {k : Nat} (evs : List (Nat × Int))
    {st : RegState} (h : alLookup k st = none) :
    alLookup k (applyEvents evs st) = none := by
  induction evs generalizing st with
  | nil => exact h
  | cons p rest ih =>
    unfold applyEvents at ih ⊢
    rw [List.foldl_cons]
    exact ih (alLookup_none_eventsStep p h)

theorem applyEvents_offset_mono (k : Nat) (base : Int) (evs : List (Nat × Int)) :
    ∀ (st : RegState) (fs : FileState),
    alLookup k st = some fs → base ≤ fs.offset →
    (∀ p ∈ evs, p.1 = k → base ≤ p.2) →
    ∃ fs', alLookup k (applyEvents evs st) = some fs' ∧ base ≤ fs'.offset := by
  induction evs with
  | nil =>
    intro st fs h hb _
    exact ⟨fs, h, hb⟩
  | cons p rest ih =>
    intro st fs h hb hw
    unfold applyEvents
    rw [List.foldl_cons]
    by_cases hp : p.1 = k
    · have hstep : eventsStep st p = alInsert k ⟨fs.source, p.2⟩ st := by
        subst hp
        simp [eventsStep, h]
      rw [hstep]
      exact ih (alInsert k ⟨fs.source, p.2⟩ st) ⟨fs.source, p.2⟩
        (alLookup_alInsert_self k _ st)
        (hw p (List.mem_cons_self p rest) hp)
        (fun q hq hqk => hw q (List.mem_cons_of_mem p hq) hqk)
    · have hpres : alLookup k (eventsStep st p) = some fs := by
        unfold eventsStep
        cases hlk : alLookup p.1 st with
        | none => exact h
        | some g => rw [alLookup_alInsert_ne _ _ hp]; exact h
      exact ih (eventsStep st p) fs hpres hb
        (fun q hq hqk => hw q (List.mem_cons_of_mem p hq) hqk)

theorem alLookup_alErase_ne {κ α : Type} [DecidableEq κ] {k k' : κ} (h : k' ≠ k)
    (l : List (κ × α)) : alLookup k (alErase k' l) = alLookup k l := by
  induction l with
  | nil => rfl
  | cons p rest ih =>
    have hkk : ¬k = k' := fun he => h he.symm
    by_cases hp : p.1 = k'
    · have hpk : ¬p.1 = k := fun he => h (hp ▸ he)
      simp [alErase, alLookup, hp, hpk, h, hkk]
    · by_cases hk : p.1 = k
      · simp [alErase, alLookup, hp, hk, h, hkk]
      · simp [alErase, alLookup, hp, hk, h, hkk, ih]

/-! Lemmas about the serialization step of Register. -/

theorem buildStateJson_aux_nodup (st : RegState) :
    ∀ doc : List (String × FileState), (alKeys doc).Nodup →
    (alKeys (st.foldl (fun doc p => alInsert p.2.source p.2 doc) doc)).Nodup := by
  induction st with
  | nil => intro doc h; exact h
  | cons p rest ih =>
    intro doc h
    rw [List.foldl_cons]
    exact ih _ (alKeys_nodup_alInsert _ _ h)

theorem buildStateJson_aux_isSome (st : RegState) (s : String) :
    ∀ doc : List (String × FileState), (alLookup s doc).isSome = true →
    (alLookup s (st.foldl (fun doc p => alInsert p.2.source p.2 doc) doc)).isSome = true := by
  induction st with
  | nil => intro doc h; exact h
  | cons p rest ih =>
    intro doc h
    rw [List.foldl_cons]
    exact ih _ (alLookup_isSome_alInsert _ _ _ h)

theorem buildStateJson_mem_isSome {st : RegState} {p : Nat × FileState}
    (hm : p ∈ st) :
    ∀ doc : List (String × FileState),
    (alLookup p.2.source (st.foldl (fun doc q => alInsert q.2.source q.2 doc) doc)).isSome = true := by
  induction st with
  | nil => cases hm
  | cons q rest ih =>
    intro doc
    rw [List.foldl_cons]
    rcases List.mem_cons.mp hm with h | h
    · subst h
      exact buildStateJson_aux_isSome rest _ _
        (by rw [alLookup_alInsert_self]; rfl)
    · exact ih h _

/-! The claims. -/

/-- C1: the claim says that on an inbound frame whose length field exceeds
1 MiB the receiver resets the connection with error "frame too large" and
neither reads the oversized payload nor delivers any further message.
The code (part_002 lines 619-633) instead pushes the error "Received
message too large (N)" onto recv_chan and then falls through: it reads
the full oversized payload, delivers it as a message, and keeps
delivering later frames.  This theorem evaluates the receiver on a frame
declaring 1048577 bytes followed by a 5-byte frame: the error is
surfaced, yet the oversized message and the following message are both
delivered. -/
theorem C1_oversizedFrameDelivered :
    receiverRun [1048577, 5] =
      [RecvOut.tooLarge 1048577, RecvOut.message 1048577, RecvOut.message 5] := by
  decide

/-- C2: the claim says a failed reload keeps the previous configuration
object active.  loadConfig (part_002 lines 293-298) assigns lc.config =
config.NewConfig() before calling Load, so when Load fails the freshly
allocated Config stays installed: reloadConfig returns the error, but
the active configuration is no longer the pre-reload object.  Evaluated
here from a state whose active config object is 0: after the failed
reload the error is returned and the active config is the fresh object
1, not 0. -/
theorem C2_reloadClobbersConfig :
    (reloadConfig ⟨0, 1⟩ false).2 = some "config load error" ∧
    (reloadConfig ⟨0, 1⟩ false).1.configId = 1 ∧
    (1 : Nat) ≠ 0 := by
  decide

/-- C3 counterexample: the stored offset is not non-decreasing over
arbitrary processed registrar events.  EventsEvent.Process assigns the
event's offset verbatim (part_001 line 80), so an event carrying a
smaller offset moves the stored offset down: after NewFile at offset 10,
an EventsEvent carrying offset 5 leaves the entry at 5 < 10. -/
theorem C3_counterexample :
    alLookup 0 (processAll [RegistrarEvent.newFile 0 "a.log" 10] []) =
      some ⟨"a.log", 10⟩ ∧
    alLookup 0 (processAll
      [RegistrarEvent.newFile 0 "a.log" 10, RegistrarEvent.events [(0, 5)]] []) =
      some ⟨"a.log", 5⟩ ∧
    (5 : Int) < 10 := by
  decide

/-- C3 (amended): the registrar assigns event offsets verbatim and does
not itself enforce monotonicity; the stored offset for a fixed
ProspectorInfo is non-decreasing across a processed registrar event
provided every offset the event writes for that file is at least the
currently stored offset (which is how the publisher produces them).
Stated per event over any well-formed state: whatever offset is stored
afterwards is at least the one stored before. -/
theorem C3_amendedStepMonotone (e : RegistrarEvent) (st : RegState)
    (fs : FileState) (k : Nat)
    (hnd : (alKeys st).Nodup)
    (h : alLookup k st = some fs)
    (hw : ∀ o ∈ writesFor k e, fs.offset ≤ o) :
    ∀ fs', alLookup k (e.Process st) = some fs' → fs.offset ≤ fs'.offset := by
  intro fs' h'
  cases e with
  | newFile p src off =>
    simp only [RegistrarEvent.Process] at h'
    by_cases hp : p = k
    · subst hp
      rw [alLookup_alInsert_self] at h'
      have hoff : fs.offset ≤ off := hw off (by simp [writesFor])
      cases h'
      exact hoff
    · rw [alLookup_alInsert_ne _ _ hp] at h'
      rw [h] at h'
      cases h'
      exact le_refl _
  | deleted p =>
    simp only [RegistrarEvent.Process] at h'
    by_cases hp : p = k
    · subst hp
      rw [alLookup_alErase_self p hnd] at h'
      cases h'
    · rw [alLookup_alErase_ne hp] at h'
      rw [h] at h'
      cases h'
      exact le_refl _
  | renamed p src =>
    simp only [RegistrarEvent.Process] at h'
    cases hlk : alLookup p st with
    | none =>
      rw [hlk] at h'
      simp only at h'
      rw [h] at h'
      cases h'
      exact le_refl _
    | some g =>
      rw [hlk] at h'
      simp only at h'
      by_cases hp : p = k
      · subst hp
        rw [h] at hlk
        cases hlk
        rw [alLookup_alInsert_self] at h'
        cases h'
        exact le_refl _
      · rw [alLookup_alInsert_ne _ _ hp] at h'
        rw [h] at h'
        cases h'
        exact le_refl _
  | events evs =>
    simp only [RegistrarEvent.Process] at h'
    have hmono := applyEvents_offset_mono k fs.offset evs st fs h (le_refl _)
      (fun p hp hpk => hw p.2 (by
        simp only [writesFor]
        exact List.mem_map_of_mem Prod.snd
          (List.mem_filter.mpr ⟨hp, by simp [hpk]⟩)))
    rcases hmono with ⟨fs'', heq, hle⟩
    rw [h'] at heq
    cases heq
    exact hle

/-- C3 witness: the amended step-monotonicity applied to a concrete state
holding offset 3 and an EventsEvent acknowledging offset 7. -/
theorem C3_amendedWitness :
    alLookup 0 (RegistrarEvent.Process (.events [(0, 7)]) [(0, ⟨"a.log", 3⟩)]) =
      some ⟨"a.log", 7⟩ ∧
    (3 : Int) ≤ 7 :=
  ⟨by decide,
    C3_amendedStepMonotone (.events [(0, 7)]) [(0, ⟨"a.log", 3⟩)] ⟨"a.log", 3⟩ 0
      (by decide) (by decide) (by decide) ⟨"a.log", 7⟩ (by decide)⟩

/-- C4 counterexample: Disconnect is not idempotent.  The first call on a
connected transport succeeds; the second call reaches
close(t.shutdown) on an already-closed channel, which panics (modelled
as the error result), so it does not complete without fault. -/
theorem C4_counterexample :
    Disconnect ⟨false, false, 42⟩ = Except.ok ⟨true, true, 0⟩ ∧
    Disconnect ⟨true, true, 0⟩ = Except.error "close of closed channel" :=
  ⟨rfl, rfl⟩

/-- C4 (amended): one Disconnect on a connected transport succeeds and
fully disconnects it (shutdown signalled, socket closed, write buffer
reset); a second Disconnect does not complete without fault - it panics
closing the already-closed shutdown channel - so Disconnect is not
idempotent. -/
theorem C4_amendedDisconnectOnce (s : TransDisconnectState)
    (h : s.shutdownClosed = false) :
    Disconnect s = Except.ok ⟨true, true, 0⟩ ∧
    Disconnect ⟨true, true, 0⟩ = Except.error "close of closed channel" := by
  constructor
  · simp [Disconnect, h]
  · rfl

/-- C4 witness: the amended statement applied to a concrete connected
transport. -/
theorem C4_witness :
    Disconnect ⟨false, false, 7⟩ = Except.ok ⟨true, true, 0⟩ ∧
    Disconnect ⟨true, true, 0⟩ = Except.error "close of closed channel" :=
  C4_amendedDisconnectOnce ⟨false, false, 7⟩ rfl

/-- C5 counterexample: a write that times out having made no progress is
not fatal to the connection.  The wrapper (part_002 lines 737-745)
retries after a timeout whenever the shutdown channel is not ready,
regardless of progress: an attempt that times out with zero bytes
written, followed by a successful attempt, makes the whole Write succeed
and the sender keeps the connection. -/
theorem C5_counterexample :
    wrapWrite [⟨0, .timeout, false⟩, ⟨3, .ok, false⟩] 0 = some (3, .ok) ∧
    senderClassify .ok = .continueSending :=
  ⟨rfl, rfl⟩

/-- C5 (amended): the write deadline is socket_interval_seconds = 5
seconds and is re-armed before every attempt, whether or not the
previous attempt made progress; a timeout alone never terminates the
connection - the wrapper retries until the shutdown channel is ready and
only then returns the timeout, upon which the sender loop exits; any
non-timeout error is returned at once and the sender surfaces it as
connection loss. -/
theorem C5_amendedWriteSemantics (a : WriteAttempt) (rest : List WriteAttempt)
    (len : Nat) :
    socket_interval_seconds = 5 ∧
    (a.res = .timeout → a.shutdownSeen = false →
      wrapWrite (a :: rest) len = wrapWrite rest (len + a.n)) ∧
    (a.res = .timeout → a.shutdownSeen = true →
      wrapWrite (a :: rest) len = some (len + a.n, .timeout) ∧
        senderClassify .timeout = .shutdownBreak) ∧
    (a.res = .fatal →
      wrapWrite (a :: rest) len = some (len + a.n, .fatal) ∧
        senderClassify .fatal = .fatalToConnection) := by
  refine ⟨rfl, ?_, ?_, ?_⟩
  · intro h1 h2
    simp [wrapWrite, h1, h2]
  · intro h1 h2
    exact ⟨by simp [wrapWrite, h1, h2], rfl⟩
  · intro h1
    exact ⟨by simp [wrapWrite, h1], rfl⟩

/-- C6: LoadPrevious first reads persist_dir/.log-courier; exactly when
that open fails it reads persist_dir/.log-courier.new (the result never
depends on the .new file when the main file opens); if either opens the
decoded states are loaded and the resume map - keyed by the stored path,
the key of the persisted document - is returned; if neither opens it
returns nil. -/
theorem C6_loadPreviousFallback :
    (∀ (d : List (String × FileState)) (o : Option (List (String × FileState))),
      LoadPrevious ⟨some d, o⟩ = some (mkLoadResult d)) ∧
    (∀ d : List (String × FileState),
      LoadPrevious ⟨none, some d⟩ = some (mkLoadResult d)) ∧
    LoadPrevious ⟨none, none⟩ = none ∧
    (∀ d : List (String × FileState), alKeys (mkLoadResult d).resume = alKeys d) := by
  refine ⟨fun d o => rfl, fun d => rfl, rfl, fun d => ?_⟩
  induction d with
  | nil => rfl
  | cons p rest ih =>
    simpa [mkLoadResult, alKeys_cons] using ih

/-- C7 counterexample: a fatal runtime error does not exit with code 2.
With valid flags and configuration, a failure to initialise the
Prometheus HTTP listener exits the process with code 1 (part_002 lines
252-255), and a prospector initialisation failure in Run hits
log.Fatalf, which also exits 1 - and 1 is not 2. -/
theorem C7_counterexample :
    startUp false false false false true true false false false = StartUpOutcome.exit 1 ∧
    runFatal false false true false = some 1 ∧
    (1 : Nat) ≠ 2 := by
  decide

/-- C7 (amended): exit 0 on clean shutdown, on a successful config test,
on -version and on -list-supported; exit 1 on configuration errors
(config-test failure, load failure, empty -config); fatal runtime
errors (logging initialisation failure, cpuprofile file creation
failure, Prometheus listener failure, admin or prospector
initialisation failure) also exit with code 1 - every deliberate
os.Exit of the entry point uses code 0 or 1.  Status 2 arises only as
the Go panic status when the -cpuprofile timer goroutine's log.Panic
fires 60 seconds after a successful profile start while the process is
still running. -/
theorem C7_amendedExitCodes :
    (∀ b1 b2 b3 b4 b5 b6 b7 b8 : Bool,
      startUp true b1 b2 b3 b4 b5 b6 b7 b8 = .exit 0) ∧
    (∀ b1 b2 b3 b4 b5 b6 b7 : Bool,
      startUp false true b1 b2 b3 b4 b5 b6 b7 = .exit 0) ∧
    (∀ b1 b2 b3 b4 b5 b6 : Bool,
      startUp false false true b1 b2 b3 b4 b5 b6 = .exit 1) ∧
    (∀ b1 b2 b3 b4 : Bool, startUp false false false true true b1 b2 b3 b4 = .exit 0) ∧
    (∀ b1 b2 b3 b4 : Bool, startUp false false false true false b1 b2 b3 b4 = .exit 1) ∧
    (∀ b1 b2 b3 b4 : Bool, startUp false false false false false b1 b2 b3 b4 = .exit 1) ∧
    (∀ b1 b2 b3 : Bool, startUp false false false false true false b1 b2 b3 = .exit 1) ∧
    (∀ b1 : Bool, startUp false false false false true true true false b1 = .exit 1) ∧
    (∀ b1 : Bool, startUp false false false false true true false b1 false = .exit 1) ∧
    startUp false false false false true true true true false = .exit 1 ∧
    (∀ b1 b2 b3 : Bool, runFatal true b1 b2 b3 = none) ∧
    (∀ b1 : Bool, runFatal false true false b1 = some 1) ∧
    runFatal false false true false = some 1 ∧
    cleanShutdownExit = 0 ∧
    (∀ v ls cfe ct lo lg pr pc li : Bool,
      startUp v ls cfe ct lo lg pr pc li ≠ .exit 2) ∧
    (∀ s ae ao po : Bool, runFatal s ae ao po ≠ some 2) ∧
    (∀ b1 : Bool, startUp false false false false true true false b1 true = .proceed false) ∧
    startUp false false false false true true true true true = .proceed true ∧
    profileTimerExit false = none ∧
    profileTimerExit true = some 2 ∧
    panicExitStatus = 2 := by
  decide

/-- C8: a RenamedEvent whose ProspectorInfo is absent from the state map
leaves the map unchanged, and inside an EventsEvent an entry whose
ProspectorInfo is absent contributes nothing: processing the event list
with it equals processing the list without it.  No entry is ever created
for the unknown key. -/
theorem C8_unknownEntrySkipped (k : Nat) (src : String) (st : RegState)
    (pre post : List (Nat × Int)) (off : Int)
    (h : alLookup k st = none) :
    RegistrarEvent.Process (.renamed k src) st = st ∧
    applyEvents (pre ++ (k, off) :: post) st = applyEvents (pre ++ post) st := by
  constructor
  · simp [RegistrarEvent.Process, h]
  · unfold applyEvents
    rw [List.foldl_append, List.foldl_append, List.foldl_cons]
    have h'' : alLookup (k, off).1 (List.foldl eventsStep st pre) = none :=
      alLookup_none_applyEvents pre h
    rw [eventsStep_of_none h'']

/-- C8 witness: skipping applied to a concrete state that tracks only
ProspectorInfo 1, with events for the unknown ProspectorInfo 0. -/
theorem C8_witness :
    RegistrarEvent.Process (.renamed 0 "b.log") [(1, ⟨"a.log", 4⟩)] =
      [(1, ⟨"a.log", 4⟩)] ∧
    applyEvents ([(1, 9)] ++ (0, 3) :: []) [(1, ⟨"a.log", 4⟩)] =
      applyEvents ([(1, 9)] ++ []) [(1, ⟨"a.log", 4⟩)] :=
  C8_unknownEntrySkipped 0 "b.log" [(1, ⟨"a.log", 4⟩)] [(1, 9)] [] 3 (by decide)

/-- C9: the document Register persists is keyed by the stored source path
(state_json[*value.Source] = value), so its keys are free of duplicates
and it holds at most one entry per path; when two tracked files carry
the same Source at write time, the document still resolves that path,
but it cannot contain both FileStates - one of the two offsets is
silently dropped. -/
theorem C9_pathKeyedCollision (st : RegState) (p1 p2 : Nat) (fs1 fs2 : FileState)
    (h1 : (p1, fs1) ∈ st) (h2 : (p2, fs2) ∈ st) (hp : p1 ≠ p2)
    (hsrc : fs1.source = fs2.source) (hfs : fs1 ≠ fs2) :
    (alKeys (buildStateJson st)).Nodup ∧
    (alLookup fs1.source (buildStateJson st)).isSome = true ∧
    ¬((fs1.source, fs1) ∈ buildStateJson st ∧ (fs2.source, fs2) ∈ buildStateJson st) := by
  have hnd : (alKeys (buildStateJson st)).Nodup := by
    unfold buildStateJson
    exact buildStateJson_aux_nodup st [] (by simp [alKeys_nil])
  refine ⟨hnd, ?_, ?_⟩
  · unfold buildStateJson
    exact buildStateJson_mem_isSome h1 []
  · rintro ⟨m1, m2⟩
    rw [hsrc] at m1
    exact hfs (mem_unique_of_alKeys_nodup hnd m1 m2)

/-- C9 witness: two tracked files both stored under path "a.log" with
offsets 1 and 2; the persisted document has duplicate-free keys, the
path resolves, and the two FileStates cannot both be in it. -/
theorem C9_witness :
    ((0, (⟨"a.log", 1⟩ : FileState)) ∈ ([(0, ⟨"a.log", 1⟩), (1, ⟨"a.log", 2⟩)] : RegState) ∧
      (1, (⟨"a.log", 2⟩ : FileState)) ∈ ([(0, ⟨"a.log", 1⟩), (1, ⟨"a.log", 2⟩)] : RegState)) ∧
    ((alKeys (buildStateJson [(0, ⟨"a.log", 1⟩), (1, ⟨"a.log", 2⟩)])).Nodup ∧
      (alLookup "a.log" (buildStateJson [(0, ⟨"a.log", 1⟩), (1, ⟨"a.log", 2⟩)])).isSome = true ∧
      ¬(("a.log", (⟨"a.log", 1⟩ : FileState)) ∈ buildStateJson [(0, ⟨"a.log", 1⟩), (1, ⟨"a.log", 2⟩)] ∧
        ("a.log", (⟨"a.log", 2⟩ : FileState)) ∈ buildStateJson [(0, ⟨"a.log", 1⟩), (1, ⟨"a.log", 2⟩)])) :=
  ⟨⟨by decide, by decide⟩,
    C9_pathKeyedCollision [(0, ⟨"a.log", 1⟩), (1, ⟨"a.log", 2⟩)] 0 1
      ⟨"a.log", 1⟩ ⟨"a.log", 2⟩ (by decide) (by decide) (by decide)
      (by decide) (by decide)⟩

/-- C10: the can_send readiness signal is raised exactly once by Connect
immediately after the connection is established (part_002 line 566): the
channel is created empty and a single token is placed in it before the
sender and receiver start and before any Flush can run; Flush itself
never touches can_send, so a caller waiting on can_send finds the token
and can send its first payload on the fresh connection. -/
theorem C10_canSendRaisedOnce :
    connectSignalInit.canSendQueue = [1] ∧
    connectSignalInit.canSendQueue.length = 1 ∧
    connectSignalInit.canSendQueue ≠ [] ∧
    (∀ s : ConnSignalState, (Flush s).canSendQueue = s.canSendQueue) :=
  ⟨rfl, rfl, by decide, fun s => rfl⟩

end LogCourier
